import Mathlib

/-!
# wepoll `src/afd.c`: provider discovery, driver socket factory, poll submission

A shallow embedding of the three functions of `afd.c`
(`afd_global_init`, `afd_create_driver_socket`, `afd_poll`) together with the
static helper `afd__find_protocol_info`, followed by theorems about them.

Conventions of the embedding.

* Pointers and handles are natural numbers; `NULL` is `0`.
* `uintptr_t` is the 64 bit unsigned type of the Win64 target; bit operations
  are taken modulo `2 ^ 64`.
* Operating system calls are not executed.  Their answers are inputs of the
  embedded function and the calls that were made are recorded in a trace, in
  program order.
* Constants that come from the Windows SDK headers carry their SDK values.
-/

namespace Wepoll

/-! ## Data model -/

/-- GUID of the Windows SDK: 32, 16, 16 bits and eight bytes, without padding. -/
structure GUID where
  Data1 : Nat
  Data2 : Nat
  Data3 : Nat
  Data4 : List Nat
  deriving DecidableEq, Repr

/-- The fields of `WSAPROTOCOL_INFOW` that `afd.c` reads, and the remaining
fields of the record as one uninterpreted block (`rest`). -/
structure WSAPROTOCOL_INFOW where
  ProviderId : GUID
  iAddressFamily : Int
  iSocketType : Int
  iProtocol : Int
  rest : List Nat
  deriving DecidableEq, Repr

/-- The constant `IPPROTO_TCP` of winsock2.h. -/
def IPPROTO_TCP : Int := 6

/-- The constant `IPPROTO_UDP` of winsock2.h. -/
def IPPROTO_UDP : Int := 17

/-- The constant `WSAENETDOWN` of winerror.h. -/
def WSAENETDOWN : Nat := 10050

/-- The constant `ERROR_IO_PENDING` of winerror.h. -/
def ERROR_IO_PENDING : Nat := 997

/-- The constant `STATUS_SUCCESS` of ntstatus.h. -/
def STATUS_SUCCESS : Nat := 0

/-- The constant `STATUS_PENDING` of ntstatus.h. -/
def STATUS_PENDING : Nat := 0x103

/-- The constant `IOCTL_AFD_POLL`, afd.c line 11. -/
def IOCTL_AFD_POLL : Nat := 0x00012024

/-- The constant `INVALID_SOCKET` of winsock2.h: all bits set. -/
def INVALID_SOCKET : Nat := 2 ^ 64 - 1

/-- The constant `WSA_FLAG_OVERLAPPED` of winsock2.h. -/
def WSA_FLAG_OVERLAPPED : Nat := 0x01

/-- The constant `HANDLE_FLAG_INHERIT` of winbase.h. -/
def HANDLE_FLAG_INHERIT : Nat := 0x1

/-- The constant `FILE_SKIP_COMPLETION_PORT_ON_SUCCESS` of winbase.h. -/
def FILE_SKIP_COMPLETION_PORT_ON_SUCCESS : Nat := 0x1

/-- The constant `FILE_SKIP_SET_EVENT_ON_HANDLE` of winbase.h. -/
def FILE_SKIP_SET_EVENT_ON_HANDLE : Nat := 0x2

/-- The table `AFD__PROVIDER_GUID_LIST`, afd.c lines 14 to 26. -/
def AFD__PROVIDER_GUID_LIST : List GUID :=
  [ -- MSAFD Tcpip [TCP+UDP+RAW / IP]
    ⟨0xe70f1aa0, 0xab8b, 0x11cf, [0x8c, 0xa3, 0x00, 0x80, 0x5f, 0x48, 0xa1, 0x92]⟩,
    -- MSAFD Tcpip [TCP+UDP+RAW / IPv6]
    ⟨0xf9eab0c0, 0x26d4, 0x11d0, [0xbb, 0xbf, 0x00, 0xaa, 0x00, 0x6c, 0x34, 0xe4]⟩,
    -- MSAFD RfComm [Bluetooth]
    ⟨0x9fc48064, 0x7298, 0x43e4, [0xb7, 0xbd, 0x18, 0x1f, 0x20, 0x89, 0x79, 0x2a]⟩,
    -- MSAFD Irda [IrDA]
    ⟨0x3972523d, 0x2af1, 0x11d1, [0xb6, 0x55, 0x00, 0x80, 0x5f, 0x36, 0x42, 0xcc]⟩ ]

/-- The constant `AFD__ANY_PROTOCOL`, afd.c line 29. -/
def AFD__ANY_PROTOCOL : Int := -1

/-! ## Provider discovery -/

/-- The inner loop of `afd__find_protocol_info` (lines 48 to 53): walk the
GUID list and report whether `memcmp` of the provider identity against some
element is `0`.  A GUID has no padding, so `memcmp` over `sizeof (GUID)` is `0`
exactly when all fields agree. -/
def guid_loop (id : GUID) : List GUID → Bool
  | [] => false
  | g :: gs => if id = g then true else guid_loop id gs

/-- The function `afd__find_protocol_info` (lines 36 to 57): the first entry, in catalog
order, that passes the protocol filter and whose provider identity is in the
GUID list; `none` is the `NULL` result. -/
def afd__find_protocol_info :
    List WSAPROTOCOL_INFOW → Int → Option WSAPROTOCOL_INFOW
  | [], _ => none
  | info :: infos, protocol_id =>
    if protocol_id ≠ AFD__ANY_PROTOCOL ∧ protocol_id ≠ info.iProtocol then
      afd__find_protocol_info infos protocol_id
    else if guid_loop info.ProviderId AFD__PROVIDER_GUID_LIST then
      some info
    else
      afd__find_protocol_info infos protocol_id

/-- The process state that `afd_global_init` can touch: the static record
`afd__driver_socket_protocol_info` (line 34) and the thread error value
written by `return_set_error`. -/
structure Globals where
  afd__driver_socket_protocol_info : WSAPROTOCOL_INFOW
  last_error : Nat
  deriving DecidableEq, Repr

/-- What one call of `afd_global_init` leaves behind: the returned `int`, the
process state, and whether `free (infos)` was executed. -/
structure InitResult where
  ret : Int
  globals : Globals
  freed : Bool
  deriving DecidableEq, Repr

/-- The function `afd_global_init` (lines 59 to 93).  The argument `catalog` is the answer
of `ws_get_protocol_catalog`: `none` when it returns a negative value,
`some infos` when it succeeds.  The macro `return_set_error (v, e)` belongs to
error.h, which is not among the sources; it stores `e` as the thread error
value and returns `v`. -/
def afd_global_init (catalog : Option (List WSAPROTOCOL_INFOW)) (g : Globals) :
    InitResult :=
  match catalog with
  | none => ⟨-1, g, false⟩
  | some infos =>
    let found : Option WSAPROTOCOL_INFOW :=
      match afd__find_protocol_info infos IPPROTO_UDP with
      | some afd_info => some afd_info
      | none =>
        match afd__find_protocol_info infos IPPROTO_TCP with
        | some afd_info => some afd_info
        | none => afd__find_protocol_info infos AFD__ANY_PROTOCOL
    match found with
    | none => ⟨-1, { g with last_error := WSAENETDOWN }, true⟩
    | some afd_info =>
      ⟨0, { g with afd__driver_socket_protocol_info := afd_info }, true⟩

/-- An entry is whitelisted when its provider identity is one of the four
identities of `AFD__PROVIDER_GUID_LIST`. -/
def whitelisted (info : WSAPROTOCOL_INFOW) : Prop :=
  info.ProviderId ∈ AFD__PROVIDER_GUID_LIST

instance (info : WSAPROTOCOL_INFOW) : Decidable (whitelisted info) := by
  unfold whitelisted; infer_instance

/-! ### Sample catalog entries -/

/-- A provider identity that is in no whitelist. -/
def identityA : GUID := ⟨0x11111111, 0x2222, 0x3333, [1, 2, 3, 4, 5, 6, 7, 8]⟩

/-- The MSAFD Tcpip IPv4 provider identity (first whitelist element). -/
def identityB : GUID :=
  ⟨0xe70f1aa0, 0xab8b, 0x11cf, [0x8c, 0xa3, 0x00, 0x80, 0x5f, 0x48, 0xa1, 0x92]⟩

def tcpA : WSAPROTOCOL_INFOW := ⟨identityA, 2, 1, 6, [1001]⟩
def udpA : WSAPROTOCOL_INFOW := ⟨identityA, 2, 2, 17, [1004]⟩
def udpB : WSAPROTOCOL_INFOW := ⟨identityB, 2, 2, 17, [1002]⟩
def tcpB : WSAPROTOCOL_INFOW := ⟨identityB, 2, 1, 6, [1003]⟩
def rawB : WSAPROTOCOL_INFOW := ⟨identityB, 2, 3, 0, [1005]⟩

/-- The all zero record: the content of a static C object before first use. -/
def zeroInfo : WSAPROTOCOL_INFOW := ⟨⟨0, 0, 0, []⟩, 0, 0, 0, []⟩

def globals0 : Globals := ⟨zeroInfo, 0⟩

/-! ## Driver socket factory -/

/-- The type `SOCKET` of winsock2.h: an unsigned pointer sized integer. -/
abbrev SOCKET := Nat

/-- The type `HANDLE` of winnt.h; `NULL` is `0`. -/
abbrev HANDLE := Nat

/-- One call that `afd_create_driver_socket` makes, with its argument values.
`err_map_win_error` is the call inside the macro `return_map_error` of
error.h. -/
inductive OsCall where
  | WSASocketW (af type protocol : Int) (lpProtocolInfo : WSAPROTOCOL_INFOW)
      (g : Nat) (dwFlags : Nat)
  | SetHandleInformation (hObject : HANDLE) (dwMask dwFlags : Nat)
  | CreateIoCompletionPort (FileHandle ExistingCompletionPort : HANDLE)
      (CompletionKey NumberOfConcurrentThreads : Nat)
  | SetFileCompletionNotificationModes (FileHandle : HANDLE) (Flags : Nat)
  | closesocket (s : SOCKET)
  | err_map_win_error
  deriving DecidableEq, Repr

/-- The operating system's answers to the four calls of the factory:
the socket returned by `WSASocketW` (`INVALID_SOCKET` on failure), the `BOOL`
of `SetHandleInformation`, the handle returned by `CreateIoCompletionPort`
(`NULL` on failure) and the `BOOL` of `SetFileCompletionNotificationModes`. -/
structure FactoryAnswers where
  WSASocketW : SOCKET
  SetHandleInformation : Bool
  CreateIoCompletionPort : HANDLE
  SetFileCompletionNotificationModes : Bool
  deriving DecidableEq, Repr

/-- What one call of `afd_create_driver_socket` leaves behind: the returned
`int`, the value stored through `driver_socket_out` (`none` when nothing is
stored), and the calls made, in program order. -/
structure FactoryResult where
  ret : Int
  driver_socket_out : Option SOCKET
  calls : List OsCall
  deriving DecidableEq, Repr

/-- The function `afd_create_driver_socket` (lines 95 to 124).  The static
record it reads is `g.afd__driver_socket_protocol_info`.  The macro
`return_map_error (v)` belongs to error.h, which is not among the sources; it
is taken to be the call `err_map_win_error ()` followed by `return v`. -/
def afd_create_driver_socket (g : Globals) (iocp : HANDLE) (os : FactoryAnswers) :
    FactoryResult :=
  let info := g.afd__driver_socket_protocol_info
  let c1 := OsCall.WSASocketW info.iAddressFamily info.iSocketType info.iProtocol
    info 0 WSA_FLAG_OVERLAPPED
  let socket := os.WSASocketW
  if socket = INVALID_SOCKET then
    ⟨-1, none, [c1, OsCall.err_map_win_error]⟩
  else
    let c2 := OsCall.SetHandleInformation socket HANDLE_FLAG_INHERIT 0
    if !os.SetHandleInformation then
      ⟨-1, none, [c1, c2, OsCall.closesocket socket, OsCall.err_map_win_error]⟩
    else
      let c3 := OsCall.CreateIoCompletionPort socket iocp 0 0
      if os.CreateIoCompletionPort = 0 then
        ⟨-1, none, [c1, c2, c3, OsCall.closesocket socket, OsCall.err_map_win_error]⟩
      else
        let c4 := OsCall.SetFileCompletionNotificationModes socket
          FILE_SKIP_SET_EVENT_ON_HANDLE
        if !os.SetFileCompletionNotificationModes then
          ⟨-1, none,
            [c1, c2, c3, c4, OsCall.closesocket socket, OsCall.err_map_win_error]⟩
        else
          ⟨0, some socket, [c1, c2, c3, c4]⟩

/-- The call closes socket `s`. -/
def isClose (s : SOCKET) : OsCall → Bool
  | OsCall.closesocket t => decide (t = s)
  | _ => false

/-- The call closes some socket. -/
def isAnyClose : OsCall → Bool
  | OsCall.closesocket _ => true
  | _ => false

/-- The call is step 2, mark non-inheritable. -/
def isInheritStep : OsCall → Bool
  | OsCall.SetHandleInformation _ _ _ => true
  | _ => false

/-- The call is step 3, associate with the completion port. -/
def isAssociateStep : OsCall → Bool
  | OsCall.CreateIoCompletionPort _ _ _ _ => true
  | _ => false

/-- The call is step 4, set the notification mode. -/
def isModeStep : OsCall → Bool
  | OsCall.SetFileCompletionNotificationModes _ _ => true
  | _ => false

/-- The notification mode flags of a call of step 4. -/
def modeFlags : OsCall → Option Nat
  | OsCall.SetFileCompletionNotificationModes _ f => some f
  | _ => none

/-- A set of notification mode flags asks the system not to queue a packet to
the completion port when a request succeeds synchronously: the bit
`FILE_SKIP_COMPLETION_PORT_ON_SUCCESS` is set in it. -/
def skipsPortOnSuccess (flags : Nat) : Bool :=
  flags &&& FILE_SKIP_COMPLETION_PORT_ON_SUCCESS != 0

/-- A set of notification mode flags asks the system not to signal the file
handle's own event when a request completes: the bit
`FILE_SKIP_SET_EVENT_ON_HANDLE` is set in it. -/
def skipsHandleEvent (flags : Nat) : Bool :=
  flags &&& FILE_SKIP_SET_EVENT_ON_HANDLE != 0

/-- Answers with which all four steps succeed and the socket is `0x1f4`. -/
def allOk : FactoryAnswers := ⟨0x1f4, true, 0x2c, true⟩

/-- Answers with which the association step fails. -/
def associateFails : FactoryAnswers := ⟨0x1f4, true, 0, true⟩

/-! ## Poll submission -/

/-- The type `OVERLAPPED` of minwinbase.h. -/
structure OVERLAPPED where
  Internal : Nat
  InternalHigh : Nat
  Offset : Nat
  OffsetHigh : Nat
  hEvent : Nat
  deriving DecidableEq, Repr

/-- Modelled from the spec: one entry of the request buffer declared in afd.h,
which is not among the sources: target handle, requested event mask, resulting
event mask, associated status. -/
structure AFD_POLL_HANDLE_INFO where
  Handle : Nat
  Events : Nat
  ResultEvents : Nat
  Status : Nat
  deriving DecidableEq, Repr

/-- Modelled from the spec: the request buffer `AFD_POLL_INFO` declared in
afd.h, which is not among the sources: an ordered list of entries. -/
structure AFD_POLL_INFO where
  Handles : List AFD_POLL_HANDLE_INFO
  deriving DecidableEq, Repr

/-- The field `iosb->Status` read through `iosb = (IO_STATUS_BLOCK*) &overlapped->Internal`:
the 32 bit status field lies over the low half of the 64 bit `Internal`. -/
def iosb_Status (o : OVERLAPPED) : Nat := o.Internal % 2 ^ 32

/-- The store `iosb->Status = v`: the low half of `Internal` is replaced, the
high half and every other field stay. -/
def set_iosb_Status (o : OVERLAPPED) (v : Nat) : OVERLAPPED :=
  { o with Internal := o.Internal / 2 ^ 32 * 2 ^ 32 + v % 2 ^ 32 }

/-- The complement `~x` at type `uintptr_t`. -/
def uintptr_not (x : Nat) : Nat := 2 ^ 64 - 1 - x % 2 ^ 64

/-- The arguments of one `NtDeviceIoControlFile` call in the order of the
source (lines 150 to 159), and the content of the two objects the pointer
arguments refer to at the moment of the call. -/
structure NtCall where
  FileHandle : HANDLE
  Event : HANDLE
  ApcRoutine : Nat
  ApcContext : Nat
  IoStatusBlock : Nat
  IoControlCode : Nat
  InputBuffer : Nat
  InputBufferLength : Nat
  OutputBuffer : Nat
  OutputBufferLength : Nat
  ov : OVERLAPPED
  info : AFD_POLL_INFO
  deriving DecidableEq, Repr

/-- The kernel's answer to one call: the returned status and the content of
the two objects when the call returns. -/
structure NtAnswer where
  status : Nat
  ov : OVERLAPPED
  info : AFD_POLL_INFO
  deriving DecidableEq, Repr

/-- The externals of `afd_poll`: `sizeof (AFD_POLL_INFO)`, the kernel call and
the status translation `RtlNtStatusToDosError` of ntdll. -/
structure PollEnv where
  sizeof_AFD_POLL_INFO : Nat
  NtDeviceIoControlFile : NtCall → NtAnswer
  RtlNtStatusToDosError : Nat → Nat

/-- The state around one `afd_poll` call: the thread error value, the
`OVERLAPPED` object and the request buffer the pointer arguments refer to, and
the kernel calls made so far. -/
structure PollState where
  last_error : Nat
  ov : OVERLAPPED
  info : AFD_POLL_INFO
  calls : List NtCall
  deriving DecidableEq, Repr

/-- How a call of `afd_poll` ends: it returns an `int`, or the assertion of
line 135 fails. -/
inductive Outcome where
  | returned (v : Int)
  | assert_failed
  deriving DecidableEq, Repr

/-- The function `afd_poll` (lines 126 to 167).  `poll_info` and `overlapped` are the
pointer values; `st.info` and `st.ov` are the objects they refer to.
`assert` and the macro `return_set_error (v, e)` belong to headers that are
not among the sources: a failed assertion stops the function at once, and
`return_set_error (v, e)` stores `e` as the thread error value and returns
`v`. -/
def afd_poll (env : PollEnv) (driver_socket : SOCKET) (poll_info : Nat)
    (overlapped : Nat) (st : PollState) : Outcome × PollState :=
  if overlapped = 0 then
    (Outcome.assert_failed, st)
  else
    let iosb := overlapped
    let event0 := st.ov.hEvent
    let routed : HANDLE × Nat :=
      if event0 &&& 1 ≠ 0 then (event0 &&& uintptr_not 1, 0) else (event0, overlapped)
    let event := routed.1
    let apc_context := routed.2
    let ov1 := set_iosb_Status st.ov STATUS_PENDING
    let call : NtCall :=
      { FileHandle := driver_socket, Event := event, ApcRoutine := 0,
        ApcContext := apc_context, IoStatusBlock := iosb,
        IoControlCode := IOCTL_AFD_POLL,
        InputBuffer := poll_info, InputBufferLength := env.sizeof_AFD_POLL_INFO,
        OutputBuffer := poll_info, OutputBufferLength := env.sizeof_AFD_POLL_INFO,
        ov := ov1, info := st.info }
    let ans := env.NtDeviceIoControlFile call
    let st1 : PollState :=
      { st with ov := ans.ov, info := ans.info, calls := st.calls ++ [call] }
    if ans.status = STATUS_SUCCESS then
      (Outcome.returned 0, st1)
    else if ans.status = STATUS_PENDING then
      (Outcome.returned (-1), { st1 with last_error := ERROR_IO_PENDING })
    else
      (Outcome.returned (-1),
        { st1 with last_error := env.RtlNtStatusToDosError ans.status })

/-- A kernel that answers every call with `status` and leaves both objects as
it found them. -/
def kernelAnswering (status : Nat) : NtCall → NtAnswer :=
  fun c => ⟨status, c.ov, c.info⟩

/-- A status translation that unwraps a Win32 error code carried in a status
of facility 7 (high half `0x8007`) and answers `ERROR_MR_MID_NOT_FOUND` (317)
for everything else. -/
def unwrapTranslate (status : Nat) : Nat :=
  if status / 2 ^ 16 = 0x8007 then status % 2 ^ 16 else 317

/-- An environment whose kernel answers every call with `status`. -/
def envAnswering (status : Nat) : PollEnv :=
  ⟨32, kernelAnswering status, unwrapTranslate⟩

/-- A sample `OVERLAPPED` whose event value has the low bit set and whose
status block holds stale data. -/
def ovEventOnly : OVERLAPPED := ⟨0xdeadbeef00000000 + 0xc0000001, 7, 0, 0, 0x2a1⟩

/-- A sample `OVERLAPPED` whose event value has the low bit clear. -/
def ovToPort : OVERLAPPED := ⟨0xc0000001, 7, 0, 0, 0x2a0⟩

def pollInfo0 : AFD_POLL_INFO := ⟨[⟨0x300, 0x19, 0, 0⟩]⟩

def pollState (o : OVERLAPPED) : PollState := ⟨0, o, pollInfo0, []⟩

/-! ## Theorems: provider discovery -/

theorem guid_loop_iff (id : GUID) (gs : List GUID) :
    guid_loop id gs = true ↔ id ∈ gs := by
  induction gs with
  | nil => simp [guid_loop]
  | cons g gs ih =>
    unfold guid_loop
    by_cases h : id = g
    · simp [h]
    · simp [h, ih]

/-- A hit of the search is a catalog entry, is whitelisted, and passes the
protocol filter. -/
theorem find_some (infos : List WSAPROTOCOL_INFOW) (p : Int)
    (r : WSAPROTOCOL_INFOW) (h : afd__find_protocol_info infos p = some r) :
    r ∈ infos ∧ whitelisted r ∧ (p = AFD__ANY_PROTOCOL ∨ r.iProtocol = p) := by
  induction infos with
  | nil => simp [afd__find_protocol_info] at h
  | cons info infos ih =>
    unfold afd__find_protocol_info at h
    split at h
    · obtain ⟨h1, h2, h3⟩ := ih h
      exact ⟨List.mem_cons_of_mem _ h1, h2, h3⟩
    · rename_i hf
      split at h
      · rename_i hg
        injection h with h
        subst h
        refine ⟨List.mem_cons_self _ _, (guid_loop_iff _ _).1 hg, ?_⟩
        by_cases hp : p = AFD__ANY_PROTOCOL
        · exact Or.inl hp
        · right
          by_contra hne
          exact hf ⟨hp, fun e => hne e.symm⟩
      · obtain ⟨h1, h2, h3⟩ := ih h
        exact ⟨List.mem_cons_of_mem _ h1, h2, h3⟩

/-- The search misses exactly when no whitelisted entry passes the filter. -/
theorem find_none_iff (infos : List WSAPROTOCOL_INFOW) (p : Int) :
    afd__find_protocol_info infos p = none ↔
      ∀ e ∈ infos, whitelisted e → (p = AFD__ANY_PROTOCOL ∨ e.iProtocol = p) → False := by
  induction infos with
  | nil => simp [afd__find_protocol_info]
  | cons info infos ih =>
    unfold afd__find_protocol_info
    split
    · rename_i hf
      rw [ih]
      constructor
      · intro H e he hw hp
        rcases List.mem_cons.1 he with rfl | he
        · rcases hp with hp | hp
          · exact hf.1 hp
          · exact hf.2 hp.symm
        · exact H e he hw hp
      · intro H e he
        exact H e (List.mem_cons_of_mem _ he)
    · rename_i hf
      split
      · rename_i hg
        constructor
        · intro H
          cases H
        · intro H
          exfalso
          refine H info (List.mem_cons_self _ _) ((guid_loop_iff _ _).1 hg) ?_
          by_cases hp : p = AFD__ANY_PROTOCOL
          · exact Or.inl hp
          · right
            by_contra hne
            exact hf ⟨hp, fun e => hne e.symm⟩
      · rename_i hg
        rw [ih]
        constructor
        · intro H e he hw hp
          rcases List.mem_cons.1 he with rfl | he
          · exact hg ((guid_loop_iff _ _).2 hw)
          · exact H e he hw hp
        · intro H e he
          exact H e (List.mem_cons_of_mem _ he)

/-! ### The three outcomes of the preference loop -/

theorem init_udp (infos : List WSAPROTOCOL_INFOW) (g : Globals) (r : WSAPROTOCOL_INFOW)
    (h : afd__find_protocol_info infos IPPROTO_UDP = some r) :
    afd_global_init (some infos) g =
      ⟨0, { g with afd__driver_socket_protocol_info := r }, true⟩ := by
  simp [afd_global_init, h]

theorem init_tcp (infos : List WSAPROTOCOL_INFOW) (g : Globals) (r : WSAPROTOCOL_INFOW)
    (hu : afd__find_protocol_info infos IPPROTO_UDP = none)
    (h : afd__find_protocol_info infos IPPROTO_TCP = some r) :
    afd_global_init (some infos) g =
      ⟨0, { g with afd__driver_socket_protocol_info := r }, true⟩ := by
  simp [afd_global_init, hu, h]

theorem init_any (infos : List WSAPROTOCOL_INFOW) (g : Globals) (r : WSAPROTOCOL_INFOW)
    (hu : afd__find_protocol_info infos IPPROTO_UDP = none)
    (ht : afd__find_protocol_info infos IPPROTO_TCP = none)
    (h : afd__find_protocol_info infos AFD__ANY_PROTOCOL = some r) :
    afd_global_init (some infos) g =
      ⟨0, { g with afd__driver_socket_protocol_info := r }, true⟩ := by
  simp [afd_global_init, hu, ht, h]

theorem init_fail (infos : List WSAPROTOCOL_INFOW) (g : Globals)
    (hu : afd__find_protocol_info infos IPPROTO_UDP = none)
    (ht : afd__find_protocol_info infos IPPROTO_TCP = none)
    (h : afd__find_protocol_info infos AFD__ANY_PROTOCOL = none) :
    afd_global_init (some infos) g =
      ⟨-1, { g with last_error := WSAENETDOWN }, true⟩ := by
  simp [afd_global_init, hu, ht, h]

theorem udp_ne_any : IPPROTO_UDP ≠ AFD__ANY_PROTOCOL := by decide

theorem tcp_ne_any : IPPROTO_TCP ≠ AFD__ANY_PROTOCOL := by decide

/-- A search with a concrete protocol hits as soon as some whitelisted entry
carries that protocol. -/
theorem find_isSome_of_mem (infos : List WSAPROTOCOL_INFOW) (p : Int)
    (e : WSAPROTOCOL_INFOW) (he : e ∈ infos) (hw : whitelisted e)
    (hp : p = AFD__ANY_PROTOCOL ∨ e.iProtocol = p) :
    ∃ r, afd__find_protocol_info infos p = some r := by
  cases hf : afd__find_protocol_info infos p with
  | some r => exact ⟨r, rfl⟩
  | none => exact ((find_none_iff infos p).1 hf e he hw hp).elim

/-- C1. Whenever the loaded catalog holds a UDP entry with a whitelisted
provider identity, `afd_global_init` returns 0 and the cached descriptor is a
catalog entry that is UDP and whitelisted, whatever else the catalog holds and
in whatever order. -/
theorem C1_udp_selected (infos : List WSAPROTOCOL_INFOW) (g : Globals)
    (h : ∃ e ∈ infos, whitelisted e ∧ e.iProtocol = IPPROTO_UDP) :
    (afd_global_init (some infos) g).ret = 0 ∧
    (afd_global_init (some infos) g).globals.afd__driver_socket_protocol_info ∈ infos ∧
    (afd_global_init (some infos) g).globals.afd__driver_socket_protocol_info.iProtocol
      = IPPROTO_UDP ∧
    whitelisted (afd_global_init (some infos) g).globals.afd__driver_socket_protocol_info := by
  obtain ⟨e, he, hw, hp⟩ := h
  obtain ⟨r, hr⟩ := find_isSome_of_mem infos IPPROTO_UDP e he hw (Or.inr hp)
  obtain ⟨h1, h2, h3⟩ := find_some infos IPPROTO_UDP r hr
  rw [init_udp infos g r hr]
  rcases h3 with h3 | h3
  · exact (udp_ne_any h3).elim
  · exact ⟨rfl, h1, h3, h2⟩

/-- C1, the scenario of the specification: the catalog
[TCP/identity-A, UDP/identity-B, TCP/identity-B] caches the UDP/identity-B
entry. -/
theorem C1_udp_selected_witness :
    (∃ e ∈ [tcpA, udpB, tcpB], whitelisted e ∧ e.iProtocol = IPPROTO_UDP) ∧
    ¬ whitelisted tcpA ∧ whitelisted tcpB ∧
    (afd_global_init (some [tcpA, udpB, tcpB]) globals0).globals.afd__driver_socket_protocol_info
      = udpB ∧
    ((afd_global_init (some [tcpA, udpB, tcpB]) globals0).ret = 0 ∧
    (afd_global_init (some [tcpA, udpB, tcpB]) globals0).globals.afd__driver_socket_protocol_info
      ∈ [tcpA, udpB, tcpB] ∧
    (afd_global_init (some [tcpA, udpB, tcpB]) globals0).globals.afd__driver_socket_protocol_info.iProtocol
      = IPPROTO_UDP ∧
    whitelisted
      (afd_global_init (some [tcpA, udpB, tcpB]) globals0).globals.afd__driver_socket_protocol_info) :=
  ⟨⟨udpB, by decide, by decide, by decide⟩, by decide, by decide, by decide,
    C1_udp_selected [tcpA, udpB, tcpB] globals0 ⟨udpB, by decide, by decide, by decide⟩⟩

/-- C2. Whenever the loaded catalog holds no whitelisted UDP entry but holds a
whitelisted TCP entry, `afd_global_init` returns 0 and the cached descriptor is
a catalog entry that is TCP and whitelisted. -/
theorem C2_tcp_selected (infos : List WSAPROTOCOL_INFOW) (g : Globals)
    (hno : ∀ e ∈ infos, whitelisted e → e.iProtocol ≠ IPPROTO_UDP)
    (h : ∃ e ∈ infos, whitelisted e ∧ e.iProtocol = IPPROTO_TCP) :
    (afd_global_init (some infos) g).ret = 0 ∧
    (afd_global_init (some infos) g).globals.afd__driver_socket_protocol_info ∈ infos ∧
    (afd_global_init (some infos) g).globals.afd__driver_socket_protocol_info.iProtocol
      = IPPROTO_TCP ∧
    whitelisted (afd_global_init (some infos) g).globals.afd__driver_socket_protocol_info := by
  obtain ⟨e, he, hw, hp⟩ := h
  have hu : afd__find_protocol_info infos IPPROTO_UDP = none := by
    rw [find_none_iff]
    intro x hx hwx hpx
    rcases hpx with hpx | hpx
    · exact udp_ne_any hpx
    · exact hno x hx hwx hpx
  obtain ⟨r, hr⟩ := find_isSome_of_mem infos IPPROTO_TCP e he hw (Or.inr hp)
  obtain ⟨h1, h2, h3⟩ := find_some infos IPPROTO_TCP r hr
  rw [init_tcp infos g r hu hr]
  rcases h3 with h3 | h3
  · exact (tcp_ne_any h3).elim
  · exact ⟨rfl, h1, h3, h2⟩

/-- C2 at the catalog [UDP/identity-A, raw/identity-B, TCP/identity-A,
TCP/identity-B]: the non-whitelisted UDP entry and the whitelisted raw entry
are passed over and TCP/identity-B is cached. -/
theorem C2_tcp_selected_witness :
    (∀ e ∈ [udpA, rawB, tcpA, tcpB], whitelisted e → e.iProtocol ≠ IPPROTO_UDP) ∧
    (afd_global_init (some [udpA, rawB, tcpA, tcpB]) globals0).globals.afd__driver_socket_protocol_info
      = tcpB ∧
    ((afd_global_init (some [udpA, rawB, tcpA, tcpB]) globals0).ret = 0 ∧
    (afd_global_init (some [udpA, rawB, tcpA, tcpB]) globals0).globals.afd__driver_socket_protocol_info
      ∈ [udpA, rawB, tcpA, tcpB] ∧
    (afd_global_init (some [udpA, rawB, tcpA, tcpB]) globals0).globals.afd__driver_socket_protocol_info.iProtocol
      = IPPROTO_TCP ∧
    whitelisted
      (afd_global_init (some [udpA, rawB, tcpA, tcpB]) globals0).globals.afd__driver_socket_protocol_info) :=
  ⟨by decide, by decide,
    C2_tcp_selected [udpA, rawB, tcpA, tcpB] globals0 (by decide)
      ⟨tcpB, by decide, by decide, by decide⟩⟩

/-- C3. Whenever no entry of the loaded catalog has a whitelisted provider
identity (the empty catalog included), `afd_global_init` returns -1, the error
value is `WSAENETDOWN`, and the cached descriptor is the one from before the
call. -/
theorem C3_no_provider (infos : List WSAPROTOCOL_INFOW) (g : Globals)
    (hno : ∀ e ∈ infos, ¬ whitelisted e) :
    (afd_global_init (some infos) g).ret = -1 ∧
    (afd_global_init (some infos) g).globals.last_error = WSAENETDOWN ∧
    (afd_global_init (some infos) g).globals.afd__driver_socket_protocol_info
      = g.afd__driver_socket_protocol_info := by
  have hall : ∀ p, afd__find_protocol_info infos p = none := by
    intro p
    rw [find_none_iff]
    intro x hx hwx _
    exact hno x hx hwx
  rw [init_fail infos g (hall _) (hall _) (hall _)]
  exact ⟨rfl, rfl, rfl⟩

/-- C3 at the catalog [TCP/identity-A, UDP/identity-A] with the descriptor of
an earlier successful discovery in the cache, and at the empty catalog. -/
theorem C3_no_provider_witness :
    (∀ e ∈ [tcpA, udpA], ¬ whitelisted e) ∧
    ((afd_global_init (some [tcpA, udpA]) ⟨udpB, 0⟩).ret = -1 ∧
    (afd_global_init (some [tcpA, udpA]) ⟨udpB, 0⟩).globals.last_error = WSAENETDOWN ∧
    (afd_global_init (some [tcpA, udpA]) ⟨udpB, 0⟩).globals.afd__driver_socket_protocol_info
      = udpB) ∧
    (afd_global_init (some []) globals0).ret = -1 :=
  ⟨by decide, C3_no_provider [tcpA, udpA] ⟨udpB, 0⟩ (by decide), by decide⟩

/-- C4. For a loaded catalog, `afd_global_init` returns 0 exactly when some
entry is whitelisted (and returns -1 otherwise); on success the cached
descriptor equals a whitelisted catalog entry, and when no whitelisted entry is
UDP or TCP the cached descriptor is neither UDP nor TCP. -/
theorem C4_success_iff (infos : List WSAPROTOCOL_INFOW) (g : Globals) :
    ((afd_global_init (some infos) g).ret = 0 ↔ ∃ e ∈ infos, whitelisted e) ∧
    ((afd_global_init (some infos) g).ret ≠ 0 →
      (afd_global_init (some infos) g).ret = -1) ∧
    ((afd_global_init (some infos) g).ret = 0 →
      (afd_global_init (some infos) g).globals.afd__driver_socket_protocol_info ∈ infos ∧
      whitelisted
        (afd_global_init (some infos) g).globals.afd__driver_socket_protocol_info ∧
      ((∀ e ∈ infos, whitelisted e →
          e.iProtocol ≠ IPPROTO_UDP ∧ e.iProtocol ≠ IPPROTO_TCP) →
        (afd_global_init (some infos) g).globals.afd__driver_socket_protocol_info.iProtocol
            ≠ IPPROTO_UDP ∧
        (afd_global_init (some infos) g).globals.afd__driver_socket_protocol_info.iProtocol
            ≠ IPPROTO_TCP)) := by
  cases hu : afd__find_protocol_info infos IPPROTO_UDP with
  | some r =>
    obtain ⟨h1, h2, _⟩ := find_some infos IPPROTO_UDP r hu
    rw [init_udp infos g r hu]
    exact ⟨⟨fun _ => ⟨r, h1, h2⟩, fun _ => rfl⟩, fun h => (h rfl).elim,
      fun _ => ⟨h1, h2, fun H => H r h1 h2⟩⟩
  | none =>
    cases ht : afd__find_protocol_info infos IPPROTO_TCP with
    | some r =>
      obtain ⟨h1, h2, _⟩ := find_some infos IPPROTO_TCP r ht
      rw [init_tcp infos g r hu ht]
      exact ⟨⟨fun _ => ⟨r, h1, h2⟩, fun _ => rfl⟩, fun h => (h rfl).elim,
        fun _ => ⟨h1, h2, fun H => H r h1 h2⟩⟩
    | none =>
      cases ha : afd__find_protocol_info infos AFD__ANY_PROTOCOL with
      | some r =>
        obtain ⟨h1, h2, _⟩ := find_some infos AFD__ANY_PROTOCOL r ha
        rw [init_any infos g r hu ht ha]
        exact ⟨⟨fun _ => ⟨r, h1, h2⟩, fun _ => rfl⟩, fun h => (h rfl).elim,
          fun _ => ⟨h1, h2, fun H => H r h1 h2⟩⟩
      | none =>
        rw [init_fail infos g hu ht ha]
        refine ⟨⟨fun h => by simp at h, ?_⟩, fun _ => rfl, fun h => by simp at h⟩
        rintro ⟨e, he, hw⟩
        exact ((find_none_iff infos AFD__ANY_PROTOCOL).1 ha e he hw (Or.inl rfl)).elim

/-- C4 evaluated: [TCP/identity-A, raw/identity-B] succeeds and caches the
raw/identity-B entry; [TCP/identity-A] fails. -/
theorem C4_success_iff_witness :
    (afd_global_init (some [tcpA, rawB]) globals0).ret = 0 ∧
    (afd_global_init (some [tcpA, rawB]) globals0).globals.afd__driver_socket_protocol_info
      = rawB ∧
    (afd_global_init (some [tcpA]) globals0).ret = -1 ∧
    ((afd_global_init (some [tcpA, rawB]) globals0).ret = 0 ↔
      ∃ e ∈ [tcpA, rawB], whitelisted e) :=
  ⟨by decide, by decide, by decide, (C4_success_iff [tcpA, rawB] globals0).1⟩

/-! ## Theorems: driver socket factory -/

theorem factory_cases (g : Globals) (iocp : HANDLE) (os : FactoryAnswers) :
    (os.WSASocketW = INVALID_SOCKET ∧
      afd_create_driver_socket g iocp os =
        ⟨-1, none,
          [OsCall.WSASocketW g.afd__driver_socket_protocol_info.iAddressFamily
              g.afd__driver_socket_protocol_info.iSocketType
              g.afd__driver_socket_protocol_info.iProtocol
              g.afd__driver_socket_protocol_info 0 WSA_FLAG_OVERLAPPED,
            OsCall.err_map_win_error]⟩) ∨
    (os.WSASocketW ≠ INVALID_SOCKET ∧ os.SetHandleInformation = false ∧
      afd_create_driver_socket g iocp os =
        ⟨-1, none,
          [OsCall.WSASocketW g.afd__driver_socket_protocol_info.iAddressFamily
              g.afd__driver_socket_protocol_info.iSocketType
              g.afd__driver_socket_protocol_info.iProtocol
              g.afd__driver_socket_protocol_info 0 WSA_FLAG_OVERLAPPED,
            OsCall.SetHandleInformation os.WSASocketW HANDLE_FLAG_INHERIT 0,
            OsCall.closesocket os.WSASocketW, OsCall.err_map_win_error]⟩) ∨
    (os.WSASocketW ≠ INVALID_SOCKET ∧ os.SetHandleInformation = true ∧
      os.CreateIoCompletionPort = 0 ∧
      afd_create_driver_socket g iocp os =
        ⟨-1, none,
          [OsCall.WSASocketW g.afd__driver_socket_protocol_info.iAddressFamily
              g.afd__driver_socket_protocol_info.iSocketType
              g.afd__driver_socket_protocol_info.iProtocol
              g.afd__driver_socket_protocol_info 0 WSA_FLAG_OVERLAPPED,
            OsCall.SetHandleInformation os.WSASocketW HANDLE_FLAG_INHERIT 0,
            OsCall.CreateIoCompletionPort os.WSASocketW iocp 0 0,
            OsCall.closesocket os.WSASocketW, OsCall.err_map_win_error]⟩) ∨
    (os.WSASocketW ≠ INVALID_SOCKET ∧ os.SetHandleInformation = true ∧
      os.CreateIoCompletionPort ≠ 0 ∧ os.SetFileCompletionNotificationModes = false ∧
      afd_create_driver_socket g iocp os =
        ⟨-1, none,
          [OsCall.WSASocketW g.afd__driver_socket_protocol_info.iAddressFamily
              g.afd__driver_socket_protocol_info.iSocketType
              g.afd__driver_socket_protocol_info.iProtocol
              g.afd__driver_socket_protocol_info 0 WSA_FLAG_OVERLAPPED,
            OsCall.SetHandleInformation os.WSASocketW HANDLE_FLAG_INHERIT 0,
            OsCall.CreateIoCompletionPort os.WSASocketW iocp 0 0,
            OsCall.SetFileCompletionNotificationModes os.WSASocketW
              FILE_SKIP_SET_EVENT_ON_HANDLE,
            OsCall.closesocket os.WSASocketW, OsCall.err_map_win_error]⟩) ∨
    (os.WSASocketW ≠ INVALID_SOCKET ∧ os.SetHandleInformation = true ∧
      os.CreateIoCompletionPort ≠ 0 ∧ os.SetFileCompletionNotificationModes = true ∧
      afd_create_driver_socket g iocp os =
        ⟨0, some os.WSASocketW,
          [OsCall.WSASocketW g.afd__driver_socket_protocol_info.iAddressFamily
              g.afd__driver_socket_protocol_info.iSocketType
              g.afd__driver_socket_protocol_info.iProtocol
              g.afd__driver_socket_protocol_info 0 WSA_FLAG_OVERLAPPED,
            OsCall.SetHandleInformation os.WSASocketW HANDLE_FLAG_INHERIT 0,
            OsCall.CreateIoCompletionPort os.WSASocketW iocp 0 0,
            OsCall.SetFileCompletionNotificationModes os.WSASocketW
              FILE_SKIP_SET_EVENT_ON_HANDLE]⟩) := by
  unfold afd_create_driver_socket
  by_cases h1 : os.WSASocketW = INVALID_SOCKET
  · left; simp [h1]
  · right
    cases h2 : os.SetHandleInformation
    · left; simp [h1]
    · right
      by_cases h3 : os.CreateIoCompletionPort = 0
      · left; simp [h1, h3]
      · right
        cases h4 : os.SetFileCompletionNotificationModes
        · left; simp [h1, h3]
        · right; simp [h1, h3]

/-- C8. `afd_create_driver_socket` leaks no handle.  If socket creation fails
it returns -1, stores nothing, attempts no later step and closes nothing.  If
socket creation succeeds and one of the three later steps fails, it returns -1,
stores nothing, closes the created socket exactly once (and closes nothing
else) and attempts no step after the failed one.  It returns 0 exactly when all
four steps succeed, and then the created socket is stored through the output
parameter and is not closed. -/
theorem C8_factory_no_leak (g : Globals) (iocp : HANDLE) (os : FactoryAnswers) :
    (os.WSASocketW = INVALID_SOCKET →
      (afd_create_driver_socket g iocp os).ret = -1 ∧
      (afd_create_driver_socket g iocp os).driver_socket_out = none ∧
      (afd_create_driver_socket g iocp os).calls.countP isAnyClose = 0 ∧
      (afd_create_driver_socket g iocp os).calls.countP isInheritStep = 0 ∧
      (afd_create_driver_socket g iocp os).calls.countP isAssociateStep = 0 ∧
      (afd_create_driver_socket g iocp os).calls.countP isModeStep = 0) ∧
    (os.WSASocketW ≠ INVALID_SOCKET →
      (os.SetHandleInformation = false ∨ os.CreateIoCompletionPort = 0 ∨
        os.SetFileCompletionNotificationModes = false) →
      (afd_create_driver_socket g iocp os).ret = -1 ∧
      (afd_create_driver_socket g iocp os).driver_socket_out = none ∧
      (afd_create_driver_socket g iocp os).calls.countP (isClose os.WSASocketW) = 1 ∧
      (afd_create_driver_socket g iocp os).calls.countP isAnyClose = 1 ∧
      (os.SetHandleInformation = false →
        (afd_create_driver_socket g iocp os).calls.countP isAssociateStep = 0 ∧
        (afd_create_driver_socket g iocp os).calls.countP isModeStep = 0) ∧
      (os.SetHandleInformation = true → os.CreateIoCompletionPort = 0 →
        (afd_create_driver_socket g iocp os).calls.countP isModeStep = 0)) ∧
    ((afd_create_driver_socket g iocp os).ret = 0 ↔
      (os.WSASocketW ≠ INVALID_SOCKET ∧ os.SetHandleInformation = true ∧
        os.CreateIoCompletionPort ≠ 0 ∧ os.SetFileCompletionNotificationModes = true)) ∧
    ((afd_create_driver_socket g iocp os).ret = 0 →
      (afd_create_driver_socket g iocp os).driver_socket_out = some os.WSASocketW ∧
      (afd_create_driver_socket g iocp os).calls.countP isAnyClose = 0) := by
  rcases factory_cases g iocp os with
    ⟨h1, e⟩ | ⟨h1, h2, e⟩ | ⟨h1, h2, h3, e⟩ | ⟨h1, h2, h3, h4, e⟩ | ⟨h1, h2, h3, h4, e⟩
  · rw [e]
    simp [h1, List.countP_cons, isAnyClose, isClose, isInheritStep,
      isAssociateStep, isModeStep]
  · rw [e]
    simp [h1, h2, List.countP_cons, isAnyClose, isClose, isInheritStep,
      isAssociateStep, isModeStep]
  · rw [e]
    simp [h1, h2, h3, List.countP_cons, isAnyClose, isClose, isInheritStep,
      isAssociateStep, isModeStep]
  · rw [e]
    simp [h1, h2, h3, h4, List.countP_cons, isAnyClose, isClose, isInheritStep,
      isAssociateStep, isModeStep]
  · rw [e]
    simp [h1, h2, h3, h4, List.countP_cons, isAnyClose, isClose, isInheritStep,
      isAssociateStep, isModeStep]

/-- C8, the scenario of the specification: when the association step fails the
created socket `0x1f4` is closed once, the notification mode step is not
attempted, nothing is stored and -1 is returned. -/
theorem C8_factory_no_leak_witness :
    afd_create_driver_socket ⟨udpB, 0⟩ 0x2c associateFails =
      ⟨-1, none,
        [OsCall.WSASocketW 2 2 17 udpB 0 WSA_FLAG_OVERLAPPED,
          OsCall.SetHandleInformation 0x1f4 HANDLE_FLAG_INHERIT 0,
          OsCall.CreateIoCompletionPort 0x1f4 0x2c 0 0,
          OsCall.closesocket 0x1f4, OsCall.err_map_win_error]⟩ ∧
    ((afd_create_driver_socket ⟨udpB, 0⟩ 0x2c associateFails).ret = -1 ∧
      (afd_create_driver_socket ⟨udpB, 0⟩ 0x2c associateFails).driver_socket_out = none ∧
      (afd_create_driver_socket ⟨udpB, 0⟩ 0x2c associateFails).calls.countP
        (isClose associateFails.WSASocketW) = 1 ∧
      (afd_create_driver_socket ⟨udpB, 0⟩ 0x2c associateFails).calls.countP isAnyClose = 1 ∧
      (associateFails.SetHandleInformation = false →
        (afd_create_driver_socket ⟨udpB, 0⟩ 0x2c associateFails).calls.countP
          isAssociateStep = 0 ∧
        (afd_create_driver_socket ⟨udpB, 0⟩ 0x2c associateFails).calls.countP isModeStep = 0) ∧
      (associateFails.SetHandleInformation = true →
        associateFails.CreateIoCompletionPort = 0 →
        (afd_create_driver_socket ⟨udpB, 0⟩ 0x2c associateFails).calls.countP
          isModeStep = 0)) :=
  ⟨by decide,
    (C8_factory_no_leak ⟨udpB, 0⟩ 0x2c associateFails).2.1 (by decide)
      (Or.inr (Or.inl (by decide)))⟩

/-- C9, as the specification states it, fails: with all four steps succeeding
the factory returns 0 and hands out socket `0x1f4`, and no call it made sets a
notification mode that skips the completion port on synchronous success. -/
theorem C9_claim_fails :
    (afd_create_driver_socket ⟨udpB, 0⟩ 0x2c allOk).ret = 0 ∧
    (afd_create_driver_socket ⟨udpB, 0⟩ 0x2c allOk).driver_socket_out = some 0x1f4 ∧
    ¬ ∃ c ∈ (afd_create_driver_socket ⟨udpB, 0⟩ 0x2c allOk).calls,
        ∃ f, modeFlags c = some f ∧ skipsPortOnSuccess f = true := by
  decide

/-- C9, amended. Whenever `afd_create_driver_socket` returns 0, its last call
sets the notification mode of the returned socket to
`FILE_SKIP_SET_EVENT_ON_HANDLE`; that is the only notification mode it sets;
this mode suppresses signalling the handle's own event and does not contain
the flag that skips the completion port on synchronous success. -/
theorem C9_mode_is_skip_set_event (g : Globals) (iocp : HANDLE) (os : FactoryAnswers)
    (h : (afd_create_driver_socket g iocp os).ret = 0) :
    (afd_create_driver_socket g iocp os).driver_socket_out = some os.WSASocketW ∧
    (afd_create_driver_socket g iocp os).calls.getLast? =
      some (OsCall.SetFileCompletionNotificationModes os.WSASocketW
        FILE_SKIP_SET_EVENT_ON_HANDLE) ∧
    (∀ c ∈ (afd_create_driver_socket g iocp os).calls, ∀ f, modeFlags c = some f →
      f = FILE_SKIP_SET_EVENT_ON_HANDLE) ∧
    skipsHandleEvent FILE_SKIP_SET_EVENT_ON_HANDLE = true ∧
    skipsPortOnSuccess FILE_SKIP_SET_EVENT_ON_HANDLE = false := by
  rcases factory_cases g iocp os with
    ⟨h1, e⟩ | ⟨h1, h2, e⟩ | ⟨h1, h2, h3, e⟩ | ⟨h1, h2, h3, h4, e⟩ | ⟨h1, h2, h3, h4, e⟩
  · rw [e] at h; simp at h
  · rw [e] at h; simp at h
  · rw [e] at h; simp at h
  · rw [e] at h; simp at h
  · rw [e]
    refine ⟨rfl, rfl, ?_, by decide, by decide⟩
    intro c hc f hf
    simp only [List.mem_cons, List.mem_singleton, List.not_mem_nil, or_false] at hc
    rcases hc with rfl | rfl | rfl | rfl <;> simp [modeFlags] at hf
    exact hf.symm

/-- C9, amended, at the run in which all four steps succeed. -/
theorem C9_mode_is_skip_set_event_witness :
    (afd_create_driver_socket ⟨udpB, 0⟩ 0x2c allOk).ret = 0 ∧
    (afd_create_driver_socket ⟨udpB, 0⟩ 0x2c allOk).calls.getLast? =
      some (OsCall.SetFileCompletionNotificationModes 0x1f4 2) ∧
    (afd_create_driver_socket ⟨udpB, 0⟩ 0x2c allOk).calls.getLast? =
      some (OsCall.SetFileCompletionNotificationModes allOk.WSASocketW
        FILE_SKIP_SET_EVENT_ON_HANDLE) :=
  ⟨by decide, by decide,
    (C9_mode_is_skip_set_event ⟨udpB, 0⟩ 0x2c allOk (by decide)).2.1⟩

/-! ## Theorems: poll submission -/

/-- The run of `afd_poll` for a non-null `overlapped`, branch by branch: the
one kernel call with all its arguments, the objects after the call, and the
returned value and error value for each of the three status classes. -/
theorem poll_unfold (env : PollEnv) (ds : SOCKET) (pi : Nat) (ovp : Nat)
    (st : PollState) (hnn : ovp ≠ 0) :
    ∃ c : NtCall,
      c = { FileHandle := ds,
            Event := if st.ov.hEvent &&& 1 ≠ 0 then st.ov.hEvent &&& uintptr_not 1
                     else st.ov.hEvent,
            ApcRoutine := 0,
            ApcContext := if st.ov.hEvent &&& 1 ≠ 0 then 0 else ovp,
            IoStatusBlock := ovp, IoControlCode := IOCTL_AFD_POLL,
            InputBuffer := pi, InputBufferLength := env.sizeof_AFD_POLL_INFO,
            OutputBuffer := pi, OutputBufferLength := env.sizeof_AFD_POLL_INFO,
            ov := set_iosb_Status st.ov STATUS_PENDING, info := st.info } ∧
      (afd_poll env ds pi ovp st).2.calls = st.calls ++ [c] ∧
      (afd_poll env ds pi ovp st).2.ov = (env.NtDeviceIoControlFile c).ov ∧
      (afd_poll env ds pi ovp st).2.info = (env.NtDeviceIoControlFile c).info ∧
      ((env.NtDeviceIoControlFile c).status = STATUS_SUCCESS →
        (afd_poll env ds pi ovp st).1 = Outcome.returned 0 ∧
        (afd_poll env ds pi ovp st).2.last_error = st.last_error) ∧
      ((env.NtDeviceIoControlFile c).status ≠ STATUS_SUCCESS →
        (env.NtDeviceIoControlFile c).status = STATUS_PENDING →
        (afd_poll env ds pi ovp st).1 = Outcome.returned (-1) ∧
        (afd_poll env ds pi ovp st).2.last_error = ERROR_IO_PENDING) ∧
      ((env.NtDeviceIoControlFile c).status ≠ STATUS_SUCCESS →
        (env.NtDeviceIoControlFile c).status ≠ STATUS_PENDING →
        (afd_poll env ds pi ovp st).1 = Outcome.returned (-1) ∧
        (afd_poll env ds pi ovp st).2.last_error =
          env.RtlNtStatusToDosError (env.NtDeviceIoControlFile c).status) := by
  refine ⟨_, rfl, ?_⟩
  have hsp : STATUS_PENDING ≠ STATUS_SUCCESS := by decide
  by_cases hb : st.ov.hEvent &&& 1 = 0
  · simp only [afd_poll, hnn, hb, ne_eq, not_true_eq_false, if_false]
    split
    · rename_i h1
      simp [h1]
    · rename_i h1
      split
      · rename_i h2
        simp [h1, h2, hsp]
      · rename_i h2
        simp [h1, h2]
  · simp only [afd_poll, hnn, hb, ne_eq, not_false_eq_true, if_true, if_false]
    split
    · rename_i h1
      simp [h1]
    · rename_i h1
      split
      · rename_i h2
        simp [h1, h2, hsp]
      · rename_i h2
        simp [h1, h2]

theorem uintptr_not_one : uintptr_not 1 = (2 ^ 63 - 1) <<< 1 := by decide

theorem testBit_clear_low (e : Nat) (he : e < 2 ^ 64) (i : Nat) :
    (e &&& uintptr_not 1).testBit i = (decide (i ≠ 0) && e.testBit i) := by
  rw [Nat.testBit_and, uintptr_not_one, Nat.testBit_shiftLeft,
    Nat.testBit_two_pow_sub_one]
  by_cases h0 : i = 0
  · subst h0; simp
  · by_cases h64 : i < 64
    · have h1 : i ≥ 1 := Nat.one_le_iff_ne_zero.2 h0
      have h2 : i - 1 < 63 := by omega
      simp [h0, h1, h2]
    · have hlt : e < 2 ^ i :=
        lt_of_lt_of_le he (Nat.pow_le_pow_right (by decide) (by omega))
      simp [Nat.testBit_lt_two_pow hlt]

theorem low_bit_test (e : Nat) : (e &&& 1 ≠ 0) ↔ e.testBit 0 = true := by
  rw [Nat.and_one_is_mod, Nat.testBit_zero]
  simp

/-- C5. For every non-null `overlapped` whose event value is a 64 bit value,
`afd_poll` makes one kernel call, and in it: if the low bit of the event value
is set, the event argument has bit 0 clear and every other bit equal to that of
the event value, and the completion port context argument is `NULL`; if the
low bit is clear, the event argument is the event value and the completion
port context argument is the pointer `overlapped` itself. -/
theorem C5_low_bit_routing (env : PollEnv) (ds : SOCKET) (pi : Nat) (ovp : Nat)
    (st : PollState) (hnn : ovp ≠ 0) (hev : st.ov.hEvent < 2 ^ 64) :
    ∃ c : NtCall,
      (afd_poll env ds pi ovp st).2.calls = st.calls ++ [c] ∧
      (st.ov.hEvent.testBit 0 = true →
        c.Event.testBit 0 = false ∧
        (∀ i, i ≠ 0 → c.Event.testBit i = st.ov.hEvent.testBit i) ∧
        c.Event = st.ov.hEvent - 1 ∧
        c.ApcContext = 0) ∧
      (st.ov.hEvent.testBit 0 = false →
        c.Event = st.ov.hEvent ∧ c.ApcContext = ovp) := by
  obtain ⟨c, hc, hcalls, -⟩ := poll_unfold env ds pi ovp st hnn
  refine ⟨c, hcalls, ?_, ?_⟩
  · intro hb
    have hb1 : st.ov.hEvent &&& 1 ≠ 0 := (low_bit_test _).2 hb
    have hE : c.Event = st.ov.hEvent &&& uintptr_not 1 := by
      rw [hc]; simp only [hb1, ne_eq, not_false_eq_true, if_true]
    have hA : c.ApcContext = 0 := by
      rw [hc]; simp only [hb1, ne_eq, not_false_eq_true, if_true]
    have hbits : ∀ i, c.Event.testBit i = (decide (i ≠ 0) && st.ov.hEvent.testBit i) := by
      intro i
      rw [hE]
      exact testBit_clear_low _ hev i
    refine ⟨by simp [hbits], fun i hi => by simp [hbits, hi], ?_, hA⟩
    apply Nat.eq_of_testBit_eq
    intro i
    rw [hbits]
    have hodd : st.ov.hEvent % 2 = 1 := by
      simpa [Nat.testBit_zero] using hb
    have hsplit : st.ov.hEvent = 2 * (st.ov.hEvent / 2) + 1 := by omega
    have hm1 : st.ov.hEvent - 1 = 2 * (st.ov.hEvent / 2) := by omega
    cases i with
    | zero =>
      rw [hm1]
      simp [Nat.testBit_zero]
    | succ j =>
      rw [hm1]
      simp only [ne_eq, Nat.succ_ne_zero, not_false_eq_true, decide_True, Bool.true_and]
      rw [Nat.testBit_succ, Nat.testBit_succ]
      simp
  · intro hb
    have hb0 : ¬ (st.ov.hEvent &&& 1 ≠ 0) := by
      intro h
      rw [(low_bit_test _).1 h] at hb
      cases hb
    refine ⟨?_, ?_⟩
    · rw [hc]; simp only [hb0, if_false]
    · rw [hc]; simp only [hb0, if_false]

/-- C5 at an event value with the low bit set (`0x2a1`): the kernel receives
`0x2a0` and a `NULL` context. -/
theorem C5_low_bit_routing_witness :
    (afd_poll (envAnswering STATUS_PENDING) 0x1f4 0x7000 0x8000
        (pollState ovEventOnly)).2.calls =
      [{ FileHandle := 0x1f4, Event := 0x2a0, ApcRoutine := 0, ApcContext := 0,
         IoStatusBlock := 0x8000, IoControlCode := 0x12024,
         InputBuffer := 0x7000, InputBufferLength := 32,
         OutputBuffer := 0x7000, OutputBufferLength := 32,
         ov := ⟨0xdeadbeef00000000 + 0x103, 7, 0, 0, 0x2a1⟩, info := pollInfo0 }] ∧
    (afd_poll (envAnswering STATUS_PENDING) 0x1f4 0x7000 0x8000
        (pollState ovToPort)).2.calls =
      [{ FileHandle := 0x1f4, Event := 0x2a0, ApcRoutine := 0, ApcContext := 0x8000,
         IoStatusBlock := 0x8000, IoControlCode := 0x12024,
         InputBuffer := 0x7000, InputBufferLength := 32,
         OutputBuffer := 0x7000, OutputBufferLength := 32,
         ov := ⟨0x103, 7, 0, 0, 0x2a0⟩, info := pollInfo0 }] ∧
    ∃ c : NtCall,
      (afd_poll (envAnswering STATUS_PENDING) 0x1f4 0x7000 0x8000
        (pollState ovEventOnly)).2.calls = (pollState ovEventOnly).calls ++ [c] ∧
      ((pollState ovEventOnly).ov.hEvent.testBit 0 = true →
        c.Event.testBit 0 = false ∧
        (∀ i, i ≠ 0 → c.Event.testBit i = (pollState ovEventOnly).ov.hEvent.testBit i) ∧
        c.Event = (pollState ovEventOnly).ov.hEvent - 1 ∧
        c.ApcContext = 0) ∧
      ((pollState ovEventOnly).ov.hEvent.testBit 0 = false →
        c.Event = (pollState ovEventOnly).ov.hEvent ∧ c.ApcContext = 0x8000) :=
  ⟨by decide, by decide,
    C5_low_bit_routing (envAnswering STATUS_PENDING) 0x1f4 0x7000 0x8000
      (pollState ovEventOnly) (by decide) (by decide)⟩

/-- C6, as the specification states it, fails: with a status translation that
unwraps Win32 codes, the kernel status `0x800703E5`, which is neither success
nor pending, makes `afd_poll` return -1 with the error `ERROR_IO_PENDING`. So
"returns -1 with the pending error" does not imply "the status is pending". -/
theorem C6_claim_fails :
    (∀ c : NtCall,
      ((envAnswering 0x800703E5).NtDeviceIoControlFile c).status = 0x800703E5) ∧
    (0x800703E5 : Nat) ≠ STATUS_SUCCESS ∧ (0x800703E5 : Nat) ≠ STATUS_PENDING ∧
    (afd_poll (envAnswering 0x800703E5) 0x1f4 0x7000 0x8000
      (pollState ovToPort)).1 = Outcome.returned (-1) ∧
    (afd_poll (envAnswering 0x800703E5) 0x1f4 0x7000 0x8000
      (pollState ovToPort)).2.last_error = ERROR_IO_PENDING ∧
    ¬ (((afd_poll (envAnswering 0x800703E5) 0x1f4 0x7000 0x8000
            (pollState ovToPort)).1 = Outcome.returned (-1) ∧
          (afd_poll (envAnswering 0x800703E5) 0x1f4 0x7000 0x8000
            (pollState ovToPort)).2.last_error = ERROR_IO_PENDING) ↔
        (0x800703E5 : Nat) = STATUS_PENDING) :=
  ⟨fun _ => rfl, by decide, by decide, by decide, by decide, by decide⟩

/-- C6, amended. For every non-null `overlapped`, with `s` the status that the
one kernel call returns: `afd_poll` returns 0 exactly when `s` is the success
status; when `s` is the pending status it returns -1 with the error
`ERROR_IO_PENDING`; for every other `s` it returns -1 with the error
`RtlNtStatusToDosError (s)`; it never returns anything but 0 or -1; and it
returns -1 with `ERROR_IO_PENDING` exactly when `s` is the pending status or
`s` is a further status that the translation itself maps to
`ERROR_IO_PENDING`. -/
theorem C6_status_classification (env : PollEnv) (ds : SOCKET) (pi : Nat) (ovp : Nat)
    (st : PollState) (hnn : ovp ≠ 0) :
    ∃ c : NtCall,
      (afd_poll env ds pi ovp st).2.calls = st.calls ++ [c] ∧
      ((afd_poll env ds pi ovp st).1 = Outcome.returned 0 ↔
        (env.NtDeviceIoControlFile c).status = STATUS_SUCCESS) ∧
      ((env.NtDeviceIoControlFile c).status = STATUS_PENDING →
        (afd_poll env ds pi ovp st).1 = Outcome.returned (-1) ∧
        (afd_poll env ds pi ovp st).2.last_error = ERROR_IO_PENDING) ∧
      ((env.NtDeviceIoControlFile c).status ≠ STATUS_SUCCESS →
        (env.NtDeviceIoControlFile c).status ≠ STATUS_PENDING →
        (afd_poll env ds pi ovp st).1 = Outcome.returned (-1) ∧
        (afd_poll env ds pi ovp st).2.last_error =
          env.RtlNtStatusToDosError (env.NtDeviceIoControlFile c).status) ∧
      ((afd_poll env ds pi ovp st).1 = Outcome.returned 0 ∨
        (afd_poll env ds pi ovp st).1 = Outcome.returned (-1)) ∧
      (((afd_poll env ds pi ovp st).1 = Outcome.returned (-1) ∧
          (afd_poll env ds pi ovp st).2.last_error = ERROR_IO_PENDING) ↔
        ((env.NtDeviceIoControlFile c).status = STATUS_PENDING ∨
          ((env.NtDeviceIoControlFile c).status ≠ STATUS_SUCCESS ∧
            env.RtlNtStatusToDosError (env.NtDeviceIoControlFile c).status
              = ERROR_IO_PENDING))) := by
  obtain ⟨c, -, hcalls, -, -, hS, hP, hO⟩ := poll_unfold env ds pi ovp st hnn
  have hsp : STATUS_PENDING ≠ STATUS_SUCCESS := by decide
  refine ⟨c, hcalls, ?_⟩
  by_cases h1 : (env.NtDeviceIoControlFile c).status = STATUS_SUCCESS
  · obtain ⟨r1, -⟩ := hS h1
    have hnp : (env.NtDeviceIoControlFile c).status ≠ STATUS_PENDING := by
      rw [h1]; exact fun h => hsp h.symm
    refine ⟨⟨fun _ => h1, fun _ => r1⟩, fun h => (hnp h).elim, fun h => (h h1).elim,
      Or.inl r1, ?_⟩
    constructor
    · rintro ⟨h, -⟩
      rw [r1] at h
      cases h
    · rintro (h | ⟨h, -⟩)
      · exact (hnp h).elim
      · exact (h h1).elim
  · by_cases h2 : (env.NtDeviceIoControlFile c).status = STATUS_PENDING
    · obtain ⟨r1, r2⟩ := hP h1 h2
      refine ⟨⟨fun h => ?_, fun h => (h1 h).elim⟩, fun _ => ⟨r1, r2⟩,
        fun _ h => (h h2).elim, Or.inr r1, ⟨fun _ => Or.inl h2, fun _ => ⟨r1, r2⟩⟩⟩
      rw [r1] at h
      cases h
    · obtain ⟨r1, r2⟩ := hO h1 h2
      refine ⟨⟨fun h => ?_, fun h => (h1 h).elim⟩, fun h => (h2 h).elim,
        fun _ _ => ⟨r1, r2⟩, Or.inr r1, ?_⟩
      · rw [r1] at h
        cases h
      · constructor
        · rintro ⟨-, h⟩
          right
          exact ⟨h1, r2 ▸ h⟩
        · rintro (h | ⟨-, h⟩)
          · exact (h2 h).elim
          · exact ⟨r1, r2.trans h⟩

/-- C6, amended, evaluated on the three branches: a kernel answering success
gives 0, one answering pending gives -1 with `ERROR_IO_PENDING` (997), one
answering `STATUS_INVALID_HANDLE` (`0xC0000008`) gives -1 with the translated
error. -/
theorem C6_status_classification_witness :
    (afd_poll (envAnswering STATUS_SUCCESS) 0x1f4 0x7000 0x8000
      (pollState ovToPort)).1 = Outcome.returned 0 ∧
    (afd_poll (envAnswering STATUS_PENDING) 0x1f4 0x7000 0x8000
      (pollState ovToPort)).1 = Outcome.returned (-1) ∧
    (afd_poll (envAnswering STATUS_PENDING) 0x1f4 0x7000 0x8000
      (pollState ovToPort)).2.last_error = 997 ∧
    (afd_poll (envAnswering 0xC0000008) 0x1f4 0x7000 0x8000
      (pollState ovToPort)).1 = Outcome.returned (-1) ∧
    (afd_poll (envAnswering 0xC0000008) 0x1f4 0x7000 0x8000
      (pollState ovToPort)).2.last_error = unwrapTranslate 0xC0000008 ∧
    ∃ c : NtCall,
      (afd_poll (envAnswering STATUS_PENDING) 0x1f4 0x7000 0x8000
        (pollState ovToPort)).2.calls = (pollState ovToPort).calls ++ [c] ∧
      ((afd_poll (envAnswering STATUS_PENDING) 0x1f4 0x7000 0x8000
        (pollState ovToPort)).1 = Outcome.returned 0 ↔
        ((envAnswering STATUS_PENDING).NtDeviceIoControlFile c).status = STATUS_SUCCESS) :=
  ⟨by decide, by decide, by decide, by decide, by decide,
    (C6_status_classification (envAnswering STATUS_PENDING) 0x1f4 0x7000 0x8000
      (pollState ovToPort) (by decide)).imp fun _ h => ⟨h.1, h.2.1⟩⟩

/-- C7. For every non-null `overlapped`, the status block that the one kernel
call receives carries the pending sentinel in its status field, whatever the
block held before, and nothing else of the `OVERLAPPED` object has changed;
and when the kernel answers pending and leaves the object as it received it,
`afd_poll` returns -1 with `ERROR_IO_PENDING` and the status field still
carries the pending sentinel. -/
theorem C7_pending_before_call (env : PollEnv) (ds : SOCKET) (pi : Nat) (ovp : Nat)
    (st : PollState) (hnn : ovp ≠ 0) :
    ∃ c : NtCall,
      (afd_poll env ds pi ovp st).2.calls = st.calls ++ [c] ∧
      c.IoStatusBlock = ovp ∧
      iosb_Status c.ov = STATUS_PENDING ∧
      c.ov.Internal / 2 ^ 32 = st.ov.Internal / 2 ^ 32 ∧
      c.ov.InternalHigh = st.ov.InternalHigh ∧
      c.ov.Offset = st.ov.Offset ∧ c.ov.OffsetHigh = st.ov.OffsetHigh ∧
      c.ov.hEvent = st.ov.hEvent ∧
      ((env.NtDeviceIoControlFile c).status = STATUS_PENDING →
        (env.NtDeviceIoControlFile c).ov = c.ov →
        (afd_poll env ds pi ovp st).1 = Outcome.returned (-1) ∧
        (afd_poll env ds pi ovp st).2.last_error = ERROR_IO_PENDING ∧
        iosb_Status (afd_poll env ds pi ovp st).2.ov = STATUS_PENDING) := by
  obtain ⟨c, hc, hcalls, hov, -, -, hP, -⟩ := poll_unfold env ds pi ovp st hnn
  have hsp : STATUS_PENDING ≠ STATUS_SUCCESS := by decide
  have hst : iosb_Status c.ov = STATUS_PENDING := by
    rw [hc]
    simp only [iosb_Status, set_iosb_Status, STATUS_PENDING]
    omega
  have hhi : c.ov.Internal / 2 ^ 32 = st.ov.Internal / 2 ^ 32 := by
    rw [hc]
    simp only [set_iosb_Status, STATUS_PENDING]
    omega
  refine ⟨c, hcalls, by rw [hc], hst, hhi, by rw [hc]; rfl, by rw [hc]; rfl,
    by rw [hc]; rfl, by rw [hc]; rfl, ?_⟩
  intro h1 h2
  obtain ⟨r1, r2⟩ := hP (by rw [h1]; exact hsp) h1
  refine ⟨r1, r2, ?_⟩
  rw [hov, h2]
  exact hst

/-- C7 at a status block that holds stale data (`0xC0000001` under a
non-zero high half) and a kernel that answers pending without writing. -/
theorem C7_pending_before_call_witness :
    iosb_Status ovEventOnly = 0xC0000001 ∧
    iosb_Status (afd_poll (envAnswering STATUS_PENDING) 0x1f4 0x7000 0x8000
      (pollState ovEventOnly)).2.ov = 0x103 ∧
    ∃ c : NtCall,
      (afd_poll (envAnswering STATUS_PENDING) 0x1f4 0x7000 0x8000
        (pollState ovEventOnly)).2.calls = (pollState ovEventOnly).calls ++ [c] ∧
      iosb_Status c.ov = STATUS_PENDING :=
  ⟨by decide, by decide,
    (C7_pending_before_call (envAnswering STATUS_PENDING) 0x1f4 0x7000 0x8000
      (pollState ovEventOnly) (by decide)).imp fun _ h => ⟨h.1, h.2.2.1⟩⟩

/-- C10. For every driver handle, request buffer and state, `afd_poll` with a
`NULL` `overlapped` ends in the failed assertion with the state exactly as it
was, so no kernel call is made; and for every non-null `overlapped` the
assertion holds, `afd_poll` returns, and exactly one kernel call is added to
the trace, made on the given driver handle with the given request buffer. -/
theorem C10_null_context_rejected (env : PollEnv) (ds : SOCKET) (pi : Nat)
    (st : PollState) :
    afd_poll env ds pi 0 st = (Outcome.assert_failed, st) ∧
    (afd_poll env ds pi 0 st).2.calls = st.calls ∧
    ∀ ovp : Nat, ovp ≠ 0 →
      (afd_poll env ds pi ovp st).1 ≠ Outcome.assert_failed ∧
      (∃ v, (afd_poll env ds pi ovp st).1 = Outcome.returned v) ∧
      (∃ c : NtCall, (afd_poll env ds pi ovp st).2.calls = st.calls ++ [c] ∧
        c.FileHandle = ds ∧ c.InputBuffer = pi ∧ c.OutputBuffer = pi ∧
        c.IoControlCode = IOCTL_AFD_POLL) ∧
      (afd_poll env ds pi ovp st).2.calls.length = st.calls.length + 1 := by
  refine ⟨by simp [afd_poll], by simp [afd_poll], ?_⟩
  intro ovp hnn
  obtain ⟨c, -, hcalls, -, -, hS, hP, hO⟩ := poll_unfold env ds pi ovp st hnn
  obtain ⟨c2, hc2, hcalls2, -⟩ := poll_unfold env ds pi ovp st hnn
  have hret : ∃ v, (afd_poll env ds pi ovp st).1 = Outcome.returned v := by
    by_cases h1 : (env.NtDeviceIoControlFile c).status = STATUS_SUCCESS
    · exact ⟨0, (hS h1).1⟩
    · by_cases h2 : (env.NtDeviceIoControlFile c).status = STATUS_PENDING
      · exact ⟨-1, (hP h1 h2).1⟩
      · exact ⟨-1, (hO h1 h2).1⟩
  refine ⟨?_, hret, ⟨c2, hcalls2, by rw [hc2], by rw [hc2], by rw [hc2], by rw [hc2]⟩, ?_⟩
  · obtain ⟨v, hv⟩ := hret
    rw [hv]
    intro h
    cases h
  · rw [hcalls]
    simp

/-- C10 evaluated: a `NULL` context with an empty trace leaves the trace empty
and ends in the failed assertion; the context `0x8000` adds one call. -/
theorem C10_null_context_rejected_witness :
    (afd_poll (envAnswering STATUS_SUCCESS) 0x1f4 0x7000 0
      (pollState ovToPort)).1 = Outcome.assert_failed ∧
    (afd_poll (envAnswering STATUS_SUCCESS) 0x1f4 0x7000 0
      (pollState ovToPort)).2.calls = [] ∧
    (afd_poll (envAnswering STATUS_SUCCESS) 0x1f4 0x7000 0x8000
      (pollState ovToPort)).2.calls.length = 1 ∧
    afd_poll (envAnswering STATUS_SUCCESS) 0x1f4 0x7000 0 (pollState ovToPort) =
      (Outcome.assert_failed, pollState ovToPort) :=
  ⟨by decide, by decide, by decide,
    (C10_null_context_rejected (envAnswering STATUS_SUCCESS) 0x1f4 0x7000
      (pollState ovToPort)).1⟩

end Wepoll
